import Mathlib

/-!
Verification of the town-scorecard generator (src/app.py).

The Python program reads a dealership-coverage spreadsheet, buckets rows into
Primary / Secondary / Vacant store categories per town and per geographic
stratification, computes derived counts and ratios, and emits per-town reports
(a Scorecard table plus a Network Plan table).

Shallow embedding conventions:
  - A spreadsheet cell is `Option String` (`none` models a pandas NaN / missing
    value) or `Option ℚ` for the numeric columns, where `none` models the result
    of `pd.to_numeric(..., errors := coerce)` failing (NaN), and `some q` a
    successfully coerced numeric value.
  - `strOfCell` models Python `str(x)` applied to a cell: `str(nan)` is the
    text "nan".
  - A dataframe (`Frame`) is the list of its (cleaned) column headers together
    with its rows; each `Record` field holds the row's cell in the column that
    `get_col_by_keyword` resolves for the corresponding semantic field (the
    field's value is irrelevant whenever that resolution fails, matching the
    guards in the Python code).
  - pandas float results that can be NaN (the mean of an all-NaN series) are
    `Option ℚ`, with `none` for NaN.
-/

namespace Scorecard

/-- Python str.upper() on the characters of a string (keyword matching in the
source is ASCII-only). -/
def upChars (s : String) : List Char :=
  s.data.map Char.toUpper

/-- Python str.lower() on the characters of a string. -/
def loChars (s : String) : List Char :=
  s.data.map Char.toLower

/-- Python str.strip(): drop whitespace at both ends. -/
def trimChars (cs : List Char) : List Char :=
  ((cs.dropWhile Char.isWhitespace).reverse.dropWhile Char.isWhitespace).reverse

/-- Does `hay` begin with `needle`? -/
def beginsWith : List Char → List Char → Bool
  | [], _ => true
  | _ :: _, [] => false
  | a :: as, b :: bs => a == b && beginsWith as bs

/-- Python substring membership `needle in hay` on character lists. -/
def listContains (needle : List Char) : List Char → Bool
  | [] => beginsWith needle []
  | b :: bs => beginsWith needle (b :: bs) || listContains needle bs

/-- Python `str(x)` on a cell: NaN prints as "nan". -/
def strOfCell : Option String → String
  | none => "nan"
  | some s => s

/-- The three store categories produced by `classify_row_bucket`. -/
inductive Bucket where
  | Primary
  | Secondary
  | Vacant
  deriving DecidableEq

/-- One spreadsheet row, restricted to the semantic fields the program reads.
Each field holds the cell in the column resolved for that field. -/
structure Record where
  strat : Option String
  bal_type : Option String
  tvs_type : Option String
  ind_s1 : Option ℚ
  bal_s1 : Option ℚ
  tvs_s1 : Option ℚ
  cr : Option ℚ
  nature : Option String
  network : Option String
  closed : Option String
  deriving DecidableEq

/-- A record with every cell missing, used to build concrete test rows. -/
def blankRecord : Record :=
  { strat := none, bal_type := none, tvs_type := none, ind_s1 := none,
    bal_s1 := none, tvs_s1 := none, cr := none, nature := none,
    network := none, closed := none }

/-- A town dataframe: its cleaned column headers and its rows. -/
structure Frame where
  headers : List String
  rows : List Record
  deriving DecidableEq

/-- get_col_by_keyword (src/app.py line 15): first column whose header contains
one of the keywords, case-insensitively; None when no column matches. -/
def get_col_by_keyword (cols : List String) (keywords : List String) : Option String :=
  cols.find? (fun col => keywords.any (fun kw => listContains (loChars kw) (loChars col)))

/-- Resolved stratification column (line 45). -/
def col_strat (f : Frame) : Option String :=
  get_col_by_keyword f.headers ["Updated Stratification", "Stratification"]

/-- Whether a BAL-store-type column resolves (line 46). -/
def has_bal_type (f : Frame) : Bool :=
  (get_col_by_keyword f.headers ["BAL Store Type"]).isSome

/-- Whether a TVS-store-type column resolves (line 47). -/
def has_tvs_type (f : Frame) : Bool :=
  (get_col_by_keyword f.headers ["TVS Store Type"]).isSome

/-- Whether an industry-volume column resolves (line 49). -/
def has_ind_s1 (f : Frame) : Bool :=
  (get_col_by_keyword f.headers ["S1 Ind - F", "S1 Ind Vistaar", "S1 Ind"]).isSome

/-- Whether a BAL-volume column resolves (line 50). -/
def has_bal_s1 (f : Frame) : Bool :=
  (get_col_by_keyword f.headers ["BAL S1 Vol", "BAL S1"]).isSome

/-- Whether a TVS-volume column resolves (line 51). -/
def has_tvs_s1 (f : Frame) : Bool :=
  (get_col_by_keyword f.headers ["TVS S1 Vol", "TVS S1"]).isSome

/-- Whether a conversion-ratio column resolves (line 52). -/
def has_cr (f : Frame) : Bool :=
  (get_col_by_keyword f.headers ["CR"]).isSome

/-- Whether a nature-of-intervention column resolves (line 54). -/
def has_nature (f : Frame) : Bool :=
  (get_col_by_keyword f.headers ["Nature of Intervention"]).isSome

/-- Whether a network-intervention column resolves (line 55). -/
def has_network (f : Frame) : Bool :=
  (get_col_by_keyword f.headers ["Network Intervention"]).isSome

/-- Resolved closed-indicator column (line 60). -/
def col_closed (f : Frame) : Option String :=
  get_col_by_keyword f.headers ["Sub-Location", "Highlight"]

/-- The uppercase text `classify_row_bucket` works on (line 28): empty when the
BAL-type column is unresolved or the cell is NaN, else str(x).upper(). -/
def classify_val (has_bal : Bool) (bal_type : Option String) : List Char :=
  match has_bal, bal_type with
  | true, some s => upChars s
  | _, _ => []

/-- Does the text contain a Primary keyword (line 31)? -/
def hasPrimaryKw (val : List Char) : Bool :=
  ["MD", "DEALER", "BRANCH", "BR"].any (fun x => listContains x.data val)

/-- Does the text contain a Secondary keyword (line 33)? -/
def hasSecondaryKw (val : List Char) : Bool :=
  ["ASD", "AD", "SUB", "REP"].any (fun x => listContains x.data val)

/-- classify_row_bucket (src/app.py lines 23-37). -/
def classify_row_bucket (has_bal : Bool) (bal_type : Option String) : Bucket :=
  let val := classify_val has_bal bal_type
  if hasPrimaryKw val then Bucket.Primary
  else if hasSecondaryKw val then Bucket.Secondary
  else Bucket.Vacant

/-- Claim C1: for every input store-type text value the classifier is total and
returns exactly one of Primary, Secondary, Vacant; a missing/empty/NaN value
yields Vacant; the uppercased text yields Primary if it contains a Primary
keyword (so Primary takes precedence when both keyword sets match), else
Secondary if it contains a Secondary keyword, else Vacant. -/
theorem classify_row_bucket_total_default_precedence (has_bal : Bool) (v : Option String) :
    (classify_row_bucket has_bal v = Bucket.Primary ∨
      classify_row_bucket has_bal v = Bucket.Secondary ∨
      classify_row_bucket has_bal v = Bucket.Vacant)
    ∧ classify_row_bucket has_bal none = Bucket.Vacant
    ∧ classify_row_bucket has_bal (some "") = Bucket.Vacant
    ∧ (hasPrimaryKw (classify_val has_bal v) = true →
        classify_row_bucket has_bal v = Bucket.Primary)
    ∧ (hasPrimaryKw (classify_val has_bal v) = false →
        hasSecondaryKw (classify_val has_bal v) = true →
        classify_row_bucket has_bal v = Bucket.Secondary)
    ∧ (hasPrimaryKw (classify_val has_bal v) = false →
        hasSecondaryKw (classify_val has_bal v) = false →
        classify_row_bucket has_bal v = Bucket.Vacant) := by
  refine ⟨?_, ?_, ?_, ?_, ?_, ?_⟩
  · unfold classify_row_bucket
    by_cases hp : hasPrimaryKw (classify_val has_bal v)
    · simp [hp]
    · by_cases hs : hasSecondaryKw (classify_val has_bal v)
      · simp [hp, hs]
      · simp [hp, hs]
  · cases has_bal <;> decide
  · cases has_bal <;> decide
  · intro hp
    unfold classify_row_bucket
    simp [hp]
  · intro hp hs
    unfold classify_row_bucket
    simp [hp, hs]
  · intro hp hs
    unfold classify_row_bucket
    simp [hp, hs]

/-- Witness for C1: the text "subDealer" matches a Primary keyword ("DEALER")
and a Secondary keyword ("SUB"), and classifies Primary. -/
theorem classify_row_bucket_total_default_precedence_witness :
    hasPrimaryKw (classify_val true (some "subDealer")) = true ∧
    hasSecondaryKw (classify_val true (some "subDealer")) = true ∧
    classify_row_bucket true (some "subDealer") = Bucket.Primary :=
  ⟨by decide, by decide,
    (classify_row_bucket_total_default_precedence true (some "subDealer")).2.2.2.1 (by decide)⟩

/-- Is a record marked closed (line 63)? `astype(str)` then a case-insensitive
substring test for "closed". -/
def closedMarked (r : Record) : Bool :=
  listContains (loChars "closed") (loChars (strOfCell r.closed))

/-- clean_df (lines 61-63): rows after dropping closed stores, applied only when
a closed-indicator column resolves. -/
def cleanRows (f : Frame) : List Record :=
  if (col_closed f).isSome then f.rows.filter (fun r => !(closedMarked r))
  else f.rows

/-- Stratification cell match (line 74): str(x).strip().lower() equals the
target stratification lowercased. -/
def stratMatches (cell : Option String) (strat : String) : Bool :=
  (trimChars (strOfCell cell).data).map Char.toLower == strat.data.map Char.toLower

/-- strat_df (line 74): the cleaned rows of one stratification. -/
def stratRows (f : Frame) (strat : String) : List Record :=
  (cleanRows f).filter (fun r => stratMatches r.strat strat)

/-- bucket_df (line 87): the stratification rows whose computed Bucket equals
the requested one (line 78 assigns the bucket by classify_row_bucket). -/
def bucketRows (f : Frame) (strat : String) (b : Bucket) : List Record :=
  (stratRows f strat).filter (fun r => classify_row_bucket (has_bal_type f) r.bal_type == b)

/-- TVS primary-side match (line 99): uppercased TVS text matches the regex
MD|DEALER|BRANCH. -/
def tvsPriTxt (r : Record) : Bool :=
  ["MD", "DEALER", "BRANCH"].any (fun x => listContains x.data (upChars (strOfCell r.tvs_type)))

/-- TVS secondary-side match (line 100): uppercased TVS text matches the regex
ASD|AD|SUB. -/
def tvsSecTxt (r : Record) : Bool :=
  ["ASD", "AD", "SUB"].any (fun x => listContains x.data (upChars (strOfCell r.tvs_type)))

/-- Addition-primary match (line 116): uppercased intervention-nature text
matches the regex BRANCH|MD. -/
def naturePriTxt (r : Record) : Bool :=
  ["BRANCH", "MD"].any (fun x => listContains x.data (upChars (strOfCell r.nature)))

/-- Addition-secondary match (line 117): uppercased intervention-nature text
contains ASD. -/
def natureSecTxt (r : Record) : Bool :=
  listContains "ASD".data (upChars (strOfCell r.nature))

/-- pandas Series.sum() with skipna: NaN entries contribute zero. -/
def qsum (l : List (Option ℚ)) : ℚ :=
  (l.map (fun o => o.getD 0)).sum

/-- pandas Series.mean() with skipna: the mean of the non-NaN entries, NaN
(modelled `none`) when there is none. -/
def seriesMean (l : List (Option ℚ)) : Option ℚ :=
  let vals := l.filterMap id
  if vals.isEmpty then none else some (vals.sum / (vals.length : ℚ))

/-- vol_ind_s1 (line 103): sum of the industry-volume column over the bucket,
zero when the column is unresolved. -/
def bucketVolInd (f : Frame) (strat : String) (b : Bucket) : ℚ :=
  if has_ind_s1 f then qsum ((bucketRows f strat b).map (fun r => r.ind_s1)) else 0

/-- vol_bal_s1 (line 104). -/
def bucketVolBal (f : Frame) (strat : String) (b : Bucket) : ℚ :=
  if has_bal_s1 f then qsum ((bucketRows f strat b).map (fun r => r.bal_s1)) else 0

/-- vol_tvs_s1 (line 105). -/
def bucketVolTvs (f : Frame) (strat : String) (b : Bucket) : ℚ :=
  if has_tvs_s1 f then qsum ((bucketRows f strat b).map (fun r => r.tvs_s1)) else 0

/-- The eleven per-bucket values returned by get_bucket_metrics (line 119). -/
structure Metrics where
  count_bal : Nat
  count_tvs_pri : Nat
  count_tvs_sec : Nat
  vol_ind : ℚ
  vol_bal : ℚ
  vol_tvs : ℚ
  ms : ℚ
  vol_gap : ℚ
  cr : Option ℚ
  add_pri : Nat
  add_sec : Nat
  deriving DecidableEq

/-- The all-zero metrics row returned for an empty subset (lines 85 and 90). -/
def zeroMetrics : Metrics :=
  { count_bal := 0, count_tvs_pri := 0, count_tvs_sec := 0, vol_ind := 0,
    vol_bal := 0, vol_tvs := 0, ms := 0, vol_gap := 0, cr := some 0,
    add_pri := 0, add_sec := 0 }

/-- get_bucket_metrics (src/app.py lines 83-119). -/
def get_bucket_metrics (f : Frame) (strat : String) (b : Bucket) : Metrics :=
  if (stratRows f strat).isEmpty then zeroMetrics
  else if (bucketRows f strat b).isEmpty then zeroMetrics
  else
    { count_bal := (bucketRows f strat b).length
      count_tvs_pri := if has_tvs_type f then ((bucketRows f strat b).filter tvsPriTxt).length else 0
      count_tvs_sec := if has_tvs_type f then ((bucketRows f strat b).filter tvsSecTxt).length else 0
      vol_ind := bucketVolInd f strat b
      vol_bal := bucketVolBal f strat b
      vol_tvs := bucketVolTvs f strat b
      ms := if bucketVolInd f strat b > 0 then bucketVolBal f strat b / bucketVolInd f strat b else 0
      vol_gap := bucketVolTvs f strat b - bucketVolBal f strat b
      cr := if has_cr f then seriesMean ((bucketRows f strat b).map (fun r => r.cr)) else some 0
      add_pri := if has_nature f then ((bucketRows f strat b).filter naturePriTxt).length else 0
      add_sec := if has_nature f then ((bucketRows f strat b).filter natureSecTxt).length else 0 }

/-- The derived values of one stratification block of the Scorecard
(lines 121-157). -/
structure StratBlock where
  p : Metrics
  s : Metrics
  v : Metrics
  gap_p : ℤ
  gap_s : ℤ
  gap_v : ℤ
  ulg_p : ℕ
  ulg_s : ℕ
  ulg_v : ℕ
  tot_bal : ℕ
  tot_tvs_p : ℕ
  tot_tvs_s : ℕ
  tot_gap : ℤ
  tot_ulg : ℕ
  net_post_p : ℕ
  net_post_s : ℕ
  net_post_tot : ℕ
  ulg_post : ℤ
  deriving DecidableEq

/-- One stratification's Scorecard computation (src/app.py lines 121-157). -/
def stratBlock (f : Frame) (strat : String) : StratBlock :=
  let p := get_bucket_metrics f strat Bucket.Primary
  let s := get_bucket_metrics f strat Bucket.Secondary
  let v := get_bucket_metrics f strat Bucket.Vacant
  { p := p, s := s, v := v
    gap_p := (p.count_bal : ℤ) - ((p.count_tvs_pri : ℤ) + (p.count_tvs_sec : ℤ))
    gap_s := (s.count_bal : ℤ) - ((s.count_tvs_pri : ℤ) + (s.count_tvs_sec : ℤ))
    gap_v := (v.count_bal : ℤ) - ((v.count_tvs_pri : ℤ) + (v.count_tvs_sec : ℤ))
    ulg_p := 0
    ulg_s := 0
    ulg_v := v.count_bal
    tot_bal := p.count_bal + s.count_bal + v.count_bal
    tot_tvs_p := p.count_tvs_pri + s.count_tvs_pri + v.count_tvs_pri
    tot_tvs_s := p.count_tvs_sec + s.count_tvs_sec + v.count_tvs_sec
    tot_gap := ((p.count_bal : ℤ) - ((p.count_tvs_pri : ℤ) + (p.count_tvs_sec : ℤ)))
      + ((s.count_bal : ℤ) - ((s.count_tvs_pri : ℤ) + (s.count_tvs_sec : ℤ)))
      + ((v.count_bal : ℤ) - ((v.count_tvs_pri : ℤ) + (v.count_tvs_sec : ℤ)))
    tot_ulg := 0 + 0 + v.count_bal
    net_post_p := p.count_bal + p.add_pri
    net_post_s := s.count_bal + s.add_sec
    net_post_tot := (p.count_bal + s.count_bal + v.count_bal)
      + (p.add_pri + p.add_sec) + (s.add_pri + s.add_sec) + (v.add_pri + v.add_sec)
    ulg_post := max 0 (((0 + 0 + v.count_bal : ℕ) : ℤ)
      - (((p.add_pri + p.add_sec) + (s.add_pri + s.add_sec) + (v.add_pri + v.add_sec) : ℕ) : ℤ)) }

/-- target_strats (line 70): the fixed stratification order. -/
def target_strats : List String :=
  ["Large Town", "Small Town", "Rural", "Deep Rural"]

/-- The data content of one generated per-town workbook: the Scorecard blocks
and the rows of the Network Plan intervention table. -/
structure TownReport where
  scorecard : List StratBlock
  networkPlan : List Record
  deriving DecidableEq

/-- generate_town_excel (src/app.py lines 39-259), reduced to the data it
computes: returns none when no stratification column resolves (line 66); the
Network Plan rows are the cleaned rows with a non-NaN network-intervention cell
(line 189), empty when that column is unresolved (line 212). -/
def generate_town_excel (f : Frame) : Option TownReport :=
  if (col_strat f).isSome then
    some { scorecard := target_strats.map (stratBlock f),
           networkPlan := if has_network f then (cleanRows f).filter (fun r => r.network.isSome) else [] }
  else none

/-- The per-town archive entries written by the driver loop (lines 300-303):
a zip member is written only when generate_town_excel returns data. -/
def zipEntries (towns : List (String × Frame)) : List (String × TownReport) :=
  towns.filterMap (fun td => (generate_town_excel td.2).map (fun d => ("Scorecard_" ++ td.1 ++ ".xlsx", d)))

/-- Classifying is total with three outcomes, so the three bucket filters of a
list partition it. -/
theorem bucket_filter_partition {α : Type} (g : α → Bucket) (l : List α) :
    (l.filter fun x => g x == Bucket.Primary).length
      + (l.filter fun x => g x == Bucket.Secondary).length
      + (l.filter fun x => g x == Bucket.Vacant).length = l.length := by
  induction l with
  | nil => rfl
  | cons a t ih =>
    cases hb : g a <;> simp [List.filter_cons, hb] <;> omega

/-- The store count of a bucket is always the size of its row subset, the
empty-subset guards included. -/
theorem count_bal_eq_length (f : Frame) (strat : String) (b : Bucket) :
    (get_bucket_metrics f strat b).count_bal = (bucketRows f strat b).length := by
  unfold get_bucket_metrics
  by_cases h1 : (stratRows f strat).isEmpty
  · have h0 : stratRows f strat = [] := List.isEmpty_iff.mp h1
    rw [if_pos h1]
    unfold bucketRows
    rw [h0]
    rfl
  · rw [if_neg h1]
    by_cases h2 : (bucketRows f strat b).isEmpty
    · have h0 : bucketRows f strat b = [] := List.isEmpty_iff.mp h2
      rw [if_pos h2, h0]
      rfl
    · rw [if_neg h2]

/-- Claim C2: for every town dataframe and stratification, the Primary,
Secondary and Vacant store counts partition the non-closed records of that
stratification: their sum is the number of those records, which is also the
Total row's store count. -/
theorem store_counts_partition (f : Frame) (strat : String) :
    (get_bucket_metrics f strat Bucket.Primary).count_bal
      + (get_bucket_metrics f strat Bucket.Secondary).count_bal
      + (get_bucket_metrics f strat Bucket.Vacant).count_bal
      = (stratRows f strat).length
    ∧ (stratBlock f strat).tot_bal = (stratRows f strat).length := by
  have hpart := bucket_filter_partition
    (fun r => classify_row_bucket (has_bal_type f) r.bal_type) (stratRows f strat)
  have hmain : (get_bucket_metrics f strat Bucket.Primary).count_bal
      + (get_bucket_metrics f strat Bucket.Secondary).count_bal
      + (get_bucket_metrics f strat Bucket.Vacant).count_bal
      = (stratRows f strat).length := by
    rw [count_bal_eq_length, count_bal_eq_length, count_bal_eq_length]
    exact hpart
  exact ⟨hmain, hmain⟩

/-- A test row whose TVS store type is the bare text "BR" (classifies Primary,
but matches neither TVS counting regex). -/
def rBrC3 : Record := { blankRecord with
  strat := some "Large Town",
  tvs_type := some "BR" }

/-- A test row whose TVS store type "MD AD" matches both TVS counting regexes. -/
def rMdAdC3 : Record := { blankRecord with
  strat := some "Large Town",
  bal_type := some "MD",
  tvs_type := some "MD AD" }

/-- A test town dataframe for the TVS-count claim. -/
def exFrameC3 : Frame :=
  { headers := ["Updated Stratification", "BAL Store Type", "TVS Store Type"],
    rows := [rBrC3, rMdAdC3] }

/-- Counterexample to claim C3: in the Vacant bucket the code counts zero TVS
primaries although its one record's TVS text "BR" classifies Primary under
classify_row_bucket; and in the Primary bucket the single record with TVS text
"MD AD" is counted on both the Primary and the Secondary TVS side. -/
theorem tvs_counts_counterexample :
    has_tvs_type exFrameC3 = true
    ∧ (get_bucket_metrics exFrameC3 "Large Town" Bucket.Vacant).count_tvs_pri = 0
    ∧ ((bucketRows exFrameC3 "Large Town" Bucket.Vacant).filter
        (fun r => classify_row_bucket (has_tvs_type exFrameC3) r.tvs_type == Bucket.Primary)).length = 1
    ∧ (bucketRows exFrameC3 "Large Town" Bucket.Primary).length = 1
    ∧ (get_bucket_metrics exFrameC3 "Large Town" Bucket.Primary).count_tvs_pri = 1
    ∧ (get_bucket_metrics exFrameC3 "Large Town" Bucket.Primary).count_tvs_sec = 1 := by
  decide

/-- Claim C3 as amended: when a TVS-store-type column resolves, the TVS primary
and secondary counts of a bucket are the counts of records whose uppercased TVS
text contains one of MD, DEALER, BRANCH (primary side) and one of ASD, AD, SUB
(secondary side) — two independent substring checks, not the classifier, so a
record can be counted on both sides and a text matching only via BR or REP is
counted on neither. -/
theorem tvs_counts_amended (f : Frame) (strat : String) (b : Bucket)
    (h : has_tvs_type f = true) :
    (get_bucket_metrics f strat b).count_tvs_pri
        = ((bucketRows f strat b).filter tvsPriTxt).length
    ∧ (get_bucket_metrics f strat b).count_tvs_sec
        = ((bucketRows f strat b).filter tvsSecTxt).length := by
  unfold get_bucket_metrics
  by_cases h1 : (stratRows f strat).isEmpty
  · have h0 : stratRows f strat = [] := List.isEmpty_iff.mp h1
    rw [if_pos h1]
    unfold bucketRows
    rw [h0]
    exact ⟨rfl, rfl⟩
  · rw [if_neg h1]
    by_cases h2 : (bucketRows f strat b).isEmpty
    · have h0 : bucketRows f strat b = [] := List.isEmpty_iff.mp h2
      rw [if_pos h2, h0]
      exact ⟨rfl, rfl⟩
    · rw [if_neg h2]
      constructor <;> simp [h]

/-- Witness for the amended C3 at a concrete frame: the Primary bucket holds one
record and its TVS-primary count is the regex-side count, here 1. -/
theorem tvs_counts_amended_witness :
    has_tvs_type exFrameC3 = true
    ∧ (get_bucket_metrics exFrameC3 "Large Town" Bucket.Primary).count_tvs_pri
        = ((bucketRows exFrameC3 "Large Town" Bucket.Primary).filter tvsPriTxt).length
    ∧ ((bucketRows exFrameC3 "Large Town" Bucket.Primary).filter tvsPriTxt).length = 1 :=
  ⟨by decide, (tvs_counts_amended exFrameC3 "Large Town" Bucket.Primary (by decide)).1, by decide⟩

/-- A test row with BAL volume 5 and TVS volume 10. -/
def rVolC4 : Record := { blankRecord with
  strat := some "Large Town",
  bal_type := some "MD",
  bal_s1 := some 5,
  tvs_s1 := some 10 }

/-- A test town dataframe with volume columns but no CR column. -/
def exFrameC4 : Frame :=
  { headers := ["Updated Stratification", "BAL Store Type", "TVS S1 Vol", "BAL S1 Vol"],
    rows := [rVolC4] }

/-- Counterexample to claim C4: with no CR column resolved and bal_volume 5 > 0,
the claim demands conversion_ratio = tvs_volume / bal_volume = 2, but the code
returns 0. -/
theorem conversion_fallback_counterexample :
    has_cr exFrameC4 = false
    ∧ (get_bucket_metrics exFrameC4 "Large Town" Bucket.Primary).vol_bal = 5
    ∧ (get_bucket_metrics exFrameC4 "Large Town" Bucket.Primary).vol_tvs = 10
    ∧ (get_bucket_metrics exFrameC4 "Large Town" Bucket.Primary).vol_tvs
        / (get_bucket_metrics exFrameC4 "Large Town" Bucket.Primary).vol_bal = 2
    ∧ (get_bucket_metrics exFrameC4 "Large Town" Bucket.Primary).cr = some 0 := by
  have hsr : stratRows exFrameC4 "Large Town" = [rVolC4] := by decide
  have hbr : bucketRows exFrameC4 "Large Town" Bucket.Primary = [rVolC4] := by decide
  have hcr : has_cr exFrameC4 = false := by decide
  have hbal : has_bal_s1 exFrameC4 = true := by decide
  have htvs : has_tvs_s1 exFrameC4 = true := by decide
  have hvb : (get_bucket_metrics exFrameC4 "Large Town" Bucket.Primary).vol_bal = 5 := by
    simp [get_bucket_metrics, hsr, hbr, bucketVolBal, qsum, hbal, rVolC4, blankRecord]
  have hvt : (get_bucket_metrics exFrameC4 "Large Town" Bucket.Primary).vol_tvs = 10 := by
    simp [get_bucket_metrics, hsr, hbr, bucketVolTvs, qsum, htvs, rVolC4, blankRecord]
  refine ⟨hcr, hvb, hvt, ?_, ?_⟩
  · rw [hvt, hvb]
    norm_num
  · simp [get_bucket_metrics, hsr, hbr, hcr]

/-- Claim C4 as amended: for every non-empty bucket the conversion ratio is the
skipna mean of the CR column over the subset when a CR column resolves, and is
the constant 0 (not tvs_volume / bal_volume) when no CR column resolves. -/
theorem conversion_fallback_amended (f : Frame) (strat : String) (b : Bucket)
    (hb : (bucketRows f strat b).isEmpty = false) :
    (get_bucket_metrics f strat b).cr =
      if has_cr f then seriesMean ((bucketRows f strat b).map (fun r => r.cr))
      else some 0 := by
  have h1 : (stratRows f strat).isEmpty = false := by
    by_cases h : (stratRows f strat).isEmpty
    · exfalso
      have h0 : stratRows f strat = [] := List.isEmpty_iff.mp h
      have hbe : bucketRows f strat b = [] := by
        unfold bucketRows
        rw [h0]
        rfl
      rw [hbe] at hb
      exact absurd hb (by decide)
    · exact Bool.eq_false_iff.mpr h
  simp only [get_bucket_metrics, h1, hb, Bool.false_eq_true, if_false]

/-- A test row with conversion-ratio cell 1. -/
def rCr1C4b : Record := { blankRecord with
  strat := some "Large Town",
  bal_type := some "MD",
  cr := some 1 }

/-- A test row with conversion-ratio cell 3. -/
def rCr3C4b : Record := { blankRecord with
  strat := some "Large Town",
  bal_type := some "MD",
  cr := some 3 }

/-- A test town dataframe with a CR column holding the values 1 and 3. -/
def exFrameC4b : Frame :=
  { headers := ["Updated Stratification", "BAL Store Type", "CR"],
    rows := [rCr1C4b, rCr3C4b] }

/-- Witness for the amended C4 at a concrete frame: a CR column with values 1
and 3 gives conversion ratio 2. -/
theorem conversion_fallback_amended_witness :
    (bucketRows exFrameC4b "Large Town" Bucket.Primary).isEmpty = false
    ∧ (get_bucket_metrics exFrameC4b "Large Town" Bucket.Primary).cr = some 2 := by
  have hbr : bucketRows exFrameC4b "Large Town" Bucket.Primary = [rCr1C4b, rCr3C4b] := by
    decide
  have hcr : has_cr exFrameC4b = true := by decide
  refine ⟨by decide, ?_⟩
  rw [conversion_fallback_amended exFrameC4b "Large Town" Bucket.Primary (by decide)]
  rw [hcr, hbr]
  simp only [if_true, List.map_cons, List.map_nil, rCr1C4b, rCr3C4b, blankRecord,
    seriesMean, List.filterMap_cons, id, List.filterMap_nil]
  norm_num

/-- A closed test row carrying a network-intervention marker. -/
def rClosedC5 : Record := { blankRecord with
  strat := some "Large Town",
  bal_type := some "MD",
  network := some "Relocate",
  closed := some "Closed - shifted" }

/-- An active test row carrying a network-intervention marker. -/
def rOpenC5 : Record := { blankRecord with
  strat := some "Large Town",
  bal_type := some "MD",
  network := some "Add ASD",
  closed := some "Active" }

/-- A test town dataframe with a closed-indicator column and a
network-intervention column. -/
def exFrameC5 : Frame :=
  { headers := ["Updated Stratification", "BAL Store Type", "Sub-Location", "Network Intervention"],
    rows := [rClosedC5, rOpenC5] }

/-- Counterexample to claim C5: with a resolvable closed-indicator column, a
closed record carrying a network-intervention marker does NOT appear in the
Network Plan table — the table is built from the filtered dataframe, so only
the open record survives. -/
theorem network_plan_closed_counterexample :
    (col_closed exFrameC5).isSome = true
    ∧ closedMarked rClosedC5 = true
    ∧ rClosedC5.network.isSome = true
    ∧ rClosedC5 ∈ exFrameC5.rows
    ∧ (generate_town_excel exFrameC5).map TownReport.networkPlan = some [rOpenC5] := by
  decide

/-- Claim C5 as amended: with a resolvable closed-indicator column, records
whose closed text contains "closed" (case-insensitively) are excluded from all
Scorecard aggregates AND from the Network Plan table — both are built from the
same filtered dataframe. -/
theorem closed_rows_excluded (f : Frame) (r : Record)
    (hc : (col_closed f).isSome = true)
    (hr : (∃ strat, r ∈ stratRows f strat) ∨
          (∃ rep, generate_town_excel f = some rep ∧ r ∈ rep.networkPlan)) :
    closedMarked r = false := by
  have hclean : ∀ x ∈ cleanRows f, closedMarked x = false := by
    intro x hx
    unfold cleanRows at hx
    rw [if_pos hc] at hx
    have hb := (List.mem_filter.mp hx).2
    simpa using hb
  rcases hr with ⟨strat, hs⟩ | ⟨rep, hg, hn⟩
  · exact hclean r (List.mem_filter.mp hs).1
  · unfold generate_town_excel at hg
    by_cases hcs : (col_strat f).isSome
    · rw [if_pos hcs] at hg
      injection hg with h2
      subst h2
      have hn2 : r ∈ (if has_network f then (cleanRows f).filter (fun x => x.network.isSome) else []) := hn
      by_cases hw : has_network f
      · rw [if_pos hw] at hn2
        exact hclean r (List.mem_filter.mp hn2).1
      · rw [if_neg hw] at hn2
        exact absurd hn2 (List.not_mem_nil r)
    · rw [if_neg hcs] at hg
      cases hg

/-- Witness for the amended C5 at a concrete frame: the record that does appear
in the stratification rows is not marked closed. -/
theorem closed_rows_excluded_witness : closedMarked rOpenC5 = false :=
  closed_rows_excluded exFrameC5 rOpenC5 (by decide) (Or.inl ⟨"Large Town", by decide⟩)

/-- A Primary test row whose intervention nature "ASD" is a secondary-side
addition. -/
def rC6 : Record := { blankRecord with
  strat := some "Large Town",
  bal_type := some "MD",
  nature := some "ASD" }

/-- A test town dataframe with a nature-of-intervention column. -/
def exFrameC6 : Frame :=
  { headers := ["Updated Stratification", "BAL Store Type", "Nature of Intervention"],
    rows := [rC6] }

/-- Counterexample to claim C6: in a Primary bucket with store count 1,
addition_primary 0 and addition_secondary 1, the code's post-network count is
1 = store_count + addition_primary, not 2 = store_count + addition_primary +
addition_secondary as the claim states. -/
theorem post_network_counterexample :
    (get_bucket_metrics exFrameC6 "Large Town" Bucket.Primary).count_bal = 1
    ∧ (get_bucket_metrics exFrameC6 "Large Town" Bucket.Primary).add_pri = 0
    ∧ (get_bucket_metrics exFrameC6 "Large Town" Bucket.Primary).add_sec = 1
    ∧ (stratBlock exFrameC6 "Large Town").net_post_p = 1
    ∧ (stratBlock exFrameC6 "Large Town").net_post_p ≠
        (get_bucket_metrics exFrameC6 "Large Town" Bucket.Primary).count_bal
        + (get_bucket_metrics exFrameC6 "Large Town" Bucket.Primary).add_pri
        + (get_bucket_metrics exFrameC6 "Large Town" Bucket.Primary).add_sec := by
  decide

/-- Claim C6 as amended: the Primary row's post-network count is its store
count plus its primary additions only, the Secondary row's is its store count
plus its secondary additions only, and the Total row's is the total store count
plus all six addition counts (reductions are fixed at zero). -/
theorem post_network_amended (f : Frame) (strat : String) :
    (stratBlock f strat).net_post_p
        = (get_bucket_metrics f strat Bucket.Primary).count_bal
          + (get_bucket_metrics f strat Bucket.Primary).add_pri
    ∧ (stratBlock f strat).net_post_s
        = (get_bucket_metrics f strat Bucket.Secondary).count_bal
          + (get_bucket_metrics f strat Bucket.Secondary).add_sec
    ∧ (stratBlock f strat).net_post_tot
        = (stratBlock f strat).tot_bal
          + ((get_bucket_metrics f strat Bucket.Primary).add_pri
              + (get_bucket_metrics f strat Bucket.Primary).add_sec)
          + ((get_bucket_metrics f strat Bucket.Secondary).add_pri
              + (get_bucket_metrics f strat Bucket.Secondary).add_sec)
          + ((get_bucket_metrics f strat Bucket.Vacant).add_pri
              + (get_bucket_metrics f strat Bucket.Vacant).add_sec) :=
  ⟨rfl, rfl, rfl⟩

/-- The Total row's addition-primary count (line 179). -/
def addPriTotal (f : Frame) (strat : String) : ℕ :=
  (get_bucket_metrics f strat Bucket.Primary).add_pri
    + (get_bucket_metrics f strat Bucket.Secondary).add_pri
    + (get_bucket_metrics f strat Bucket.Vacant).add_pri

/-- The Total row's addition-secondary count (line 179). -/
def addSecTotal (f : Frame) (strat : String) : ℕ :=
  (get_bucket_metrics f strat Bucket.Primary).add_sec
    + (get_bucket_metrics f strat Bucket.Secondary).add_sec
    + (get_bucket_metrics f strat Bucket.Vacant).add_sec

/-- Claim C7: for every stratification, the post-appointment unique-location
gap is max(0, unique_location_gap − (addition_primary + addition_secondary)),
with the addition counts taken as the Total row's, and is therefore never
negative. -/
theorem post_ulg_clamped (f : Frame) (strat : String) :
    (stratBlock f strat).ulg_post
        = max 0 (((stratBlock f strat).tot_ulg : ℤ)
            - ((addPriTotal f strat : ℤ) + (addSecTotal f strat : ℤ)))
    ∧ 0 ≤ (stratBlock f strat).ulg_post := by
  constructor
  · simp only [stratBlock, addPriTotal, addSecTotal]
    congr 1
    push_cast
    ring
  · simp only [stratBlock]
    exact le_max_left 0 _

/-- Claim C8: the market share of a bucket is bal_volume / industry_volume when
the industry volume is positive and 0 when it is zero or negative; the division
is guarded, so the computation is total. -/
theorem market_share_guarded (f : Frame) (strat : String) (b : Bucket) :
    ((get_bucket_metrics f strat b).vol_ind > 0 →
      (get_bucket_metrics f strat b).ms
        = (get_bucket_metrics f strat b).vol_bal / (get_bucket_metrics f strat b).vol_ind)
    ∧ ((get_bucket_metrics f strat b).vol_ind ≤ 0 →
        (get_bucket_metrics f strat b).ms = 0) := by
  unfold get_bucket_metrics
  by_cases h1 : (stratRows f strat).isEmpty
  · rw [if_pos h1]
    constructor
    · intro h
      simp only [zeroMetrics] at h
      exact absurd h (lt_irrefl 0)
    · intro _
      rfl
  · rw [if_neg h1]
    by_cases h2 : (bucketRows f strat b).isEmpty
    · rw [if_pos h2]
      constructor
      · intro h
        simp only [zeroMetrics] at h
        exact absurd h (lt_irrefl 0)
      · intro _
        rfl
    · rw [if_neg h2]
      constructor
      · intro h
        show (if bucketVolInd f strat b > 0
            then bucketVolBal f strat b / bucketVolInd f strat b else 0)
          = bucketVolBal f strat b / bucketVolInd f strat b
        exact if_pos h
      · intro h
        show (if bucketVolInd f strat b > 0
            then bucketVolBal f strat b / bucketVolInd f strat b else 0) = 0
        exact if_neg (not_lt.mpr h)

/-- A test row with industry volume 100 and BAL volume 40. -/
def rVolC8 : Record := { blankRecord with
  strat := some "Large Town",
  bal_type := some "MD",
  ind_s1 := some 100,
  bal_s1 := some 40 }

/-- A test town dataframe with industry- and BAL-volume columns. -/
def exFrameC8 : Frame :=
  { headers := ["Updated Stratification", "BAL Store Type", "S1 Ind", "BAL S1"],
    rows := [rVolC8] }

/-- Witness for C8 at a concrete frame: industry volume 100 and BAL volume 40
give market share 2/5. -/
theorem market_share_guarded_witness :
    (get_bucket_metrics exFrameC8 "Large Town" Bucket.Primary).vol_ind > 0
    ∧ (get_bucket_metrics exFrameC8 "Large Town" Bucket.Primary).ms = 2 / 5 := by
  have hsr : stratRows exFrameC8 "Large Town" = [rVolC8] := by decide
  have hbr : bucketRows exFrameC8 "Large Town" Bucket.Primary = [rVolC8] := by decide
  have hind : has_ind_s1 exFrameC8 = true := by decide
  have hbal : has_bal_s1 exFrameC8 = true := by decide
  have hvi : (get_bucket_metrics exFrameC8 "Large Town" Bucket.Primary).vol_ind = 100 := by
    simp [get_bucket_metrics, hsr, hbr, bucketVolInd, qsum, hind, rVolC8, blankRecord]
  have hvb : (get_bucket_metrics exFrameC8 "Large Town" Bucket.Primary).vol_bal = 40 := by
    simp [get_bucket_metrics, hsr, hbr, bucketVolBal, qsum, hbal, rVolC8, blankRecord]
  have hpos : (get_bucket_metrics exFrameC8 "Large Town" Bucket.Primary).vol_ind > 0 := by
    rw [hvi]
    norm_num
  refine ⟨hpos, ?_⟩
  rw [(market_share_guarded exFrameC8 "Large Town" Bucket.Primary).1 hpos, hvi, hvb]
  norm_num

/-- Claim C9: when no column header matches a stratification keyword, the
per-town generation returns no data and nothing is written to the archive for
that town. -/
theorem missing_strat_no_output (f : Frame) (t : String)
    (h : get_col_by_keyword f.headers ["Updated Stratification", "Stratification"] = none) :
    generate_town_excel f = none ∧ zipEntries [(t, f)] = [] := by
  have hc : col_strat f = none := h
  have h1 : generate_town_excel f = none := by
    simp [generate_town_excel, hc]
  refine ⟨h1, ?_⟩
  simp [zipEntries, h1]

/-- A test town dataframe with no stratification-like header. -/
def exFrameC9 : Frame :=
  { headers := ["Town", "BAL Store Type"],
    rows := [blankRecord] }

/-- Witness for C9 at a concrete frame without a stratification column. -/
theorem missing_strat_no_output_witness :
    generate_town_excel exFrameC9 = none ∧ zipEntries [("TownX", exFrameC9)] = [] :=
  missing_strat_no_output exFrameC9 "TownX" (by decide)

/-- Claim C10: when no column header contains a closed-indicator keyword, the
closed filter is skipped, so every row — closed-marked or not — stays in the
frame and lands in the stratification rows it matches. -/
theorem no_closed_col_skips_filter (f : Frame) (r : Record) (strat : String)
    (h : col_closed f = none) (hr : r ∈ f.rows)
    (hm : stratMatches r.strat strat = true) :
    cleanRows f = f.rows ∧ r ∈ stratRows f strat := by
  have hc : cleanRows f = f.rows := by
    unfold cleanRows
    rw [h]
    simp
  refine ⟨hc, ?_⟩
  unfold stratRows
  rw [hc]
  exact List.mem_filter.mpr ⟨hr, hm⟩

/-- A closed-marked test row. -/
def rC10 : Record := { blankRecord with
  strat := some "Large Town",
  bal_type := some "MD",
  closed := some "Closed" }

/-- A test town dataframe without any closed-indicator header. -/
def exFrameC10 : Frame :=
  { headers := ["Updated Stratification", "BAL Store Type"],
    rows := [rC10] }

/-- Witness for C10 at a concrete frame: a closed-marked row is still counted
in the stratification rows because no closed column resolves. -/
theorem no_closed_col_skips_filter_witness :
    closedMarked rC10 = true ∧ rC10 ∈ stratRows exFrameC10 "Large Town" :=
  ⟨by decide,
    (no_closed_col_skips_filter exFrameC10 rC10 "Large Town" (by decide) (by decide) (by decide)).2⟩

end Scorecard
